import Mathlib

/-! # Verification of the GOST-56042 payment codec

Shallow embedding of the `gost-56042-rs` crate: the constrained string
types (`src/string_types.rs`), the requisite dictionary and payment
builder (`src/payment.rs`), the error taxonomy (`src/error.rs`) and the
three policy parsers (`src/parser.rs`).

Text is modelled as `List Char` (Rust `str` is a sequence of Unicode
scalar values; `chars().count()` is `List.length`).  Byte strings are
`List Nat` with every element below 256.  Rust panics are modelled with
`Option`: a result of `none` at the top level means the Rust code
panics on that input.
-/

namespace Gost

deriving instance DecidableEq for Except

/-- `ExactSizeString<N>` from `src/string_types.rs`: a string whose
character count equals `N` (the invariant carried by the Rust type). -/
abbrev ExactSizeString (n : Nat) := {s : List Char // s.length = n}

/-- `MaxSizeString<N>` from `src/string_types.rs`: a string whose
character count is at most `N`. -/
abbrev MaxSizeString (n : Nat) := {s : List Char // s.length ≤ n}

/-- `ExactSizeString::new`: succeeds iff the character count equals `N`. -/
def ExactSizeString.new (n : Nat) (val : List Char) : Option (ExactSizeString n) :=
  if h : val.length = n then some ⟨val, h⟩ else none

/-- `MaxSizeString::new`: succeeds iff the character count is at most `N`. -/
def MaxSizeString.new (n : Nat) (val : List Char) : Option (MaxSizeString n) :=
  if h : val.length ≤ n then some ⟨val, h⟩ else none

/-- `TechCode` from `src/payment.rs` (lines 700-746): the closed
15-member enumeration of technical payment codes. -/
inductive TechCode
  | Mobile
  | HousingAndUtilites
  | Taxes
  | SecurityServices
  | FMS
  | PFR
  | LoanRepayments
  | EducationalInstitutions
  | InternetTV
  | Emoney
  | Vacation
  | InvestmentInsurance
  | SportHealth
  | Charity
  | Other
deriving DecidableEq

/-- `TechCode::as_str` from `src/payment.rs`. -/
def TechCode.asStr : TechCode → List Char
  | .Mobile => "01".data
  | .HousingAndUtilites => "02".data
  | .Taxes => "03".data
  | .SecurityServices => "04".data
  | .FMS => "05".data
  | .PFR => "06".data
  | .LoanRepayments => "07".data
  | .EducationalInstitutions => "08".data
  | .InternetTV => "09".data
  | .Emoney => "10".data
  | .Vacation => "11".data
  | .InvestmentInsurance => "12".data
  | .SportHealth => "13".data
  | .Charity => "14".data
  | .Other => "15".data

/-- `Error` from `src/error.rs`.  Box-of-str payloads are `List Char`,
byte-array payloads are `List Nat`. -/
inductive Error
  | corruptedHeader (msg : List Char)
  | decodingError
  | encodingError
  | requiredRequisiteNotPresented
  | unknownPair (key val : List Char)
  | unknownEncodingCode (code : Nat)
  | unknownTechCode (code : List Char)
  | unsupportedVersion (passed current : List Nat)
  | wrongFormatId (formatId : List Nat)
  | wrongPair (key val : List Char)
  | wrongRequiredRequisiteOrder (passed expected : List Char)
deriving DecidableEq

/-- `TechCode::from_str` from `src/payment.rs`: the inverse of `as_str`,
failing with `UnknownTechCode` on any other string. -/
def TechCode.fromStr (val : List Char) : Except Error TechCode :=
  if val = "01".data then .ok .Mobile
  else if val = "02".data then .ok .HousingAndUtilites
  else if val = "03".data then .ok .Taxes
  else if val = "04".data then .ok .SecurityServices
  else if val = "05".data then .ok .FMS
  else if val = "06".data then .ok .PFR
  else if val = "07".data then .ok .LoanRepayments
  else if val = "08".data then .ok .EducationalInstitutions
  else if val = "09".data then .ok .InternetTV
  else if val = "10".data then .ok .Emoney
  else if val = "11".data then .ok .Vacation
  else if val = "12".data then .ok .InvestmentInsurance
  else if val = "13".data then .ok .SportHealth
  else if val = "14".data then .ok .Charity
  else if val = "15".data then .ok .Other
  else .error (.unknownTechCode val)

/-- `PaymentEncoding` from `src/payment.rs`: the three supported body
charsets, discriminated by header byte `'1'` / `'2'` / `'3'`. -/
inductive PaymentEncoding
  | Win1251
  | Utf8
  | Koi8R
deriving DecidableEq

/-- `TryFrom<u8> for PaymentEncoding`: maps `b'1'`, `b'2'`, `b'3'` and
fails with `UnknownEncodingCode` on everything else. -/
def PaymentEncoding.tryFrom (value : Nat) : Except Error PaymentEncoding :=
  if value = 0x31 then .ok .Win1251
  else if value = 0x32 then .ok .Utf8
  else if value = 0x33 then .ok .Koi8R
  else .error (.unknownEncodingCode value)

/-- `PaymentEncoding::char`. -/
def PaymentEncoding.char : PaymentEncoding → Char
  | .Win1251 => '1'
  | .Utf8 => '2'
  | .Koi8R => '3'

/-- Modelled from the spec: the `Display` rendering of
`PaymentEncoding` used by `parser.rs` when building the
`CorruptedHeader` message is not present under `src/`; the spec only
says the message names the declared charset, so each variant is
rendered by its charset name. -/
def PaymentEncoding.display : PaymentEncoding → List Char
  | .Win1251 => "Win1251".data
  | .Utf8 => "Utf8".data
  | .Koi8R => "Koi8R".data

/-- `TryFrom<(&str, &str)> for NoCustomRequisites` from
`src/custom.rs`: the default extension point always fails with
`UnknownPair(key, value)`. -/
def NoCustomRequisites.tryFrom (key val : List Char) : Except Error Unit :=
  .error (.unknownPair key val)

set_option maxHeartbeats 1600000 in
/-- `Requisite<NoCustomRequisites>` from `src/payment.rs` (lines
312-469): the closed dictionary of payment fields, instantiated at the
default extension type `NoCustomRequisites` (a unit struct), so the
`Custom` variant carries no data. -/
inductive Requisite
  | name (v : MaxSizeString 160)
  | personalAcc (v : ExactSizeString 20)
  | bankName (v : MaxSizeString 45)
  | bic (v : ExactSizeString 9)
  | correspAcc (v : MaxSizeString 20)
  | sum (v : MaxSizeString 18)
  | purpose (v : MaxSizeString 210)
  | payeeINN (v : MaxSizeString 12)
  | payerINN (v : MaxSizeString 12)
  | drawerStatus (v : MaxSizeString 2)
  | kpp (v : MaxSizeString 9)
  | cbc (v : MaxSizeString 20)
  | oktmo (v : MaxSizeString 11)
  | paytReason (v : MaxSizeString 2)
  | taxPeriod (v : MaxSizeString 10)
  | docNo (v : MaxSizeString 15)
  | docDate (v : MaxSizeString 10)
  | taxPayKind (v : MaxSizeString 2)
  | lastName (v : List Char)
  | firstName (v : List Char)
  | middleName (v : List Char)
  | payerAddress (v : List Char)
  | personalAccount (v : List Char)
  | docIdx (v : List Char)
  | pensAcc (v : List Char)
  | contract (v : List Char)
  | persAcc (v : List Char)
  | flat (v : List Char)
  | phone (v : List Char)
  | payerIdType (v : List Char)
  | payerIdNum (v : List Char)
  | childFio (v : List Char)
  | birthDate (v : List Char)
  | paymTerm (v : List Char)
  | paymPeriod (v : List Char)
  | category (v : List Char)
  | serviceName (v : List Char)
  | counterId (v : List Char)
  | counterVal (v : List Char)
  | quittId (v : List Char)
  | quittDate (v : List Char)
  | instNum (v : List Char)
  | classNum (v : List Char)
  | specFio (v : List Char)
  | addAmount (v : List Char)
  | ruleId (v : List Char)
  | execId (v : List Char)
  | regType (v : List Char)
  | uin (v : List Char)
  | techCode (v : TechCode)
  | custom

/-- `Requisite::key` from `src/payment.rs` (lines 472-526).  For the
`Custom` variant it calls `NoCustomRequisites::key`, which panics
(`panic!("No key")` in `src/custom.rs`); the panic is modelled as
`none`. -/
def Requisite.key : Requisite → Option (List Char)
  | .name _ => some "Name".data
  | .personalAcc _ => some "PersonalAcc".data
  | .bankName _ => some "BankName".data
  | .bic _ => some "BIC".data
  | .correspAcc _ => some "CorrespAcc".data
  | .sum _ => some "Sum".data
  | .purpose _ => some "Purpose".data
  | .payeeINN _ => some "PayeeINN".data
  | .payerINN _ => some "PayerINN".data
  | .drawerStatus _ => some "DrawerStatus".data
  | .kpp _ => some "KPP".data
  | .cbc _ => some "CBC".data
  | .oktmo _ => some "OKTMO".data
  | .paytReason _ => some "PaytReason".data
  | .taxPeriod _ => some "TaxPeriod".data
  | .docNo _ => some "DocNo".data
  | .docDate _ => some "DocDate".data
  | .taxPayKind _ => some "TaxPayKind".data
  | .lastName _ => some "LastName".data
  | .firstName _ => some "FirstName".data
  | .middleName _ => some "MiddleName".data
  | .payerAddress _ => some "PayerAddress".data
  | .personalAccount _ => some "PersonalAccount".data
  | .docIdx _ => some "DocIdx".data
  | .pensAcc _ => some "PensAcc".data
  | .contract _ => some "Contract".data
  | .persAcc _ => some "PersAcc".data
  | .flat _ => some "Flat".data
  | .phone _ => some "Phone".data
  | .payerIdType _ => some "PayerIdType".data
  | .payerIdNum _ => some "PayerIdNum".data
  | .childFio _ => some "ChildFio".data
  | .birthDate _ => some "BirthDate".data
  | .paymTerm _ => some "PaymTerm".data
  | .paymPeriod _ => some "PaymPeriod".data
  | .category _ => some "Category".data
  | .serviceName _ => some "ServiceName".data
  | .counterId _ => some "CounterId".data
  | .counterVal _ => some "CounterVal".data
  | .quittId _ => some "QuittId".data
  | .quittDate _ => some "QuittDate".data
  | .instNum _ => some "InstNum".data
  | .classNum _ => some "ClassNum".data
  | .specFio _ => some "SpecFio".data
  | .addAmount _ => some "AddAmount".data
  | .ruleId _ => some "RuleId".data
  | .execId _ => some "ExecId".data
  | .regType _ => some "RegType".data
  | .uin _ => some "UIN".data
  | .techCode _ => some "TechCode".data
  | .custom => none

/-- `Requisite::value` from `src/payment.rs` (lines 528-583).  The
`Custom` variant calls `NoCustomRequisites::value`, which panics;
modelled as `none`. -/
def Requisite.value : Requisite → Option (List Char)
  | .name v => some v.1
  | .personalAcc v => some v.1
  | .bankName v => some v.1
  | .bic v => some v.1
  | .correspAcc v => some v.1
  | .sum v => some v.1
  | .purpose v => some v.1
  | .payeeINN v => some v.1
  | .payerINN v => some v.1
  | .drawerStatus v => some v.1
  | .kpp v => some v.1
  | .cbc v => some v.1
  | .oktmo v => some v.1
  | .paytReason v => some v.1
  | .taxPeriod v => some v.1
  | .docNo v => some v.1
  | .docDate v => some v.1
  | .taxPayKind v => some v.1
  | .lastName v => some v
  | .firstName v => some v
  | .middleName v => some v
  | .payerAddress v => some v
  | .personalAccount v => some v
  | .docIdx v => some v
  | .pensAcc v => some v
  | .contract v => some v
  | .persAcc v => some v
  | .flat v => some v
  | .phone v => some v
  | .payerIdType v => some v
  | .payerIdNum v => some v
  | .childFio v => some v
  | .birthDate v => some v
  | .paymTerm v => some v
  | .paymPeriod v => some v
  | .category v => some v
  | .serviceName v => some v
  | .counterId v => some v
  | .counterVal v => some v
  | .quittId v => some v
  | .quittDate v => some v
  | .instNum v => some v
  | .classNum v => some v
  | .specFio v => some v
  | .addAmount v => some v
  | .ruleId v => some v
  | .execId v => some v
  | .regType v => some v
  | .uin v => some v
  | .techCode t => some t.asStr
  | .custom => none

/-- The 50 built-in wire keys, i.e. the range of `Requisite::key` over
the non-Custom variants (in declaration order). -/
def wireKeys : List (List Char) :=
  ["Name".data, "PersonalAcc".data, "BankName".data, "BIC".data, "CorrespAcc".data,
   "Sum".data, "Purpose".data, "PayeeINN".data, "PayerINN".data, "DrawerStatus".data,
   "KPP".data, "CBC".data, "OKTMO".data, "PaytReason".data, "TaxPeriod".data,
   "DocNo".data, "DocDate".data, "TaxPayKind".data, "LastName".data, "FirstName".data,
   "MiddleName".data, "PayerAddress".data, "PersonalAccount".data, "DocIdx".data,
   "PensAcc".data, "Contract".data, "PersAcc".data, "Flat".data, "Phone".data,
   "PayerIdType".data, "PayerIdNum".data, "ChildFio".data, "BirthDate".data,
   "PaymTerm".data, "PaymPeriod".data, "Category".data, "ServiceName".data,
   "CounterId".data, "CounterVal".data, "QuittId".data, "QuittDate".data,
   "InstNum".data, "ClassNum".data, "SpecFio".data, "AddAmount".data, "RuleId".data,
   "ExecId".data, "RegType".data, "UIN".data, "TechCode".data]

/-- `TryFrom<(&str, &str)> for Requisite` from `src/payment.rs` (lines
585-697), with the default `NoCustomRequisites` extension.  The match
arms are reproduced in source order; note the source has no arm for
`"Contract"` or `"PersAcc"`, so those keys fall through to the
extension point like unknown keys do. -/
def Requisite.tryFrom (key val : List Char) : Except Error Requisite :=
  if key = "Name".data then
    match MaxSizeString.new 160 val with
    | some v => .ok (.name v)
    | none => .error (.wrongPair key val)
  else if key = "PersonalAcc".data then
    match ExactSizeString.new 20 val with
    | some v => .ok (.personalAcc v)
    | none => .error (.wrongPair key val)
  else if key = "BankName".data then
    match MaxSizeString.new 45 val with
    | some v => .ok (.bankName v)
    | none => .error (.wrongPair key val)
  else if key = "BIC".data then
    match ExactSizeString.new 9 val with
    | some v => .ok (.bic v)
    | none => .error (.wrongPair key val)
  else if key = "CorrespAcc".data then
    match MaxSizeString.new 20 val with
    | some v => .ok (.correspAcc v)
    | none => .error (.wrongPair key val)
  else if key = "Sum".data then
    match MaxSizeString.new 18 val with
    | some v => .ok (.sum v)
    | none => .error (.wrongPair key val)
  else if key = "Purpose".data then
    match MaxSizeString.new 210 val with
    | some v => .ok (.purpose v)
    | none => .error (.wrongPair key val)
  else if key = "PayeeINN".data then
    match MaxSizeString.new 12 val with
    | some v => .ok (.payeeINN v)
    | none => .error (.wrongPair key val)
  else if key = "PayerINN".data then
    match MaxSizeString.new 12 val with
    | some v => .ok (.payerINN v)
    | none => .error (.wrongPair key val)
  else if key = "DrawerStatus".data then
    match MaxSizeString.new 2 val with
    | some v => .ok (.drawerStatus v)
    | none => .error (.wrongPair key val)
  else if key = "KPP".data then
    match MaxSizeString.new 9 val with
    | some v => .ok (.kpp v)
    | none => .error (.wrongPair key val)
  else if key = "CBC".data then
    match MaxSizeString.new 20 val with
    | some v => .ok (.cbc v)
    | none => .error (.wrongPair key val)
  else if key = "OKTMO".data then
    match MaxSizeString.new 11 val with
    | some v => .ok (.oktmo v)
    | none => .error (.wrongPair key val)
  else if key = "PaytReason".data then
    match MaxSizeString.new 2 val with
    | some v => .ok (.paytReason v)
    | none => .error (.wrongPair key val)
  else if key = "TaxPeriod".data then
    match MaxSizeString.new 10 val with
    | some v => .ok (.taxPeriod v)
    | none => .error (.wrongPair key val)
  else if key = "DocNo".data then
    match MaxSizeString.new 15 val with
    | some v => .ok (.docNo v)
    | none => .error (.wrongPair key val)
  else if key = "DocDate".data then
    match MaxSizeString.new 10 val with
    | some v => .ok (.docDate v)
    | none => .error (.wrongPair key val)
  else if key = "TaxPayKind".data then
    match MaxSizeString.new 2 val with
    | some v => .ok (.taxPayKind v)
    | none => .error (.wrongPair key val)
  else if key = "LastName".data then .ok (.lastName val)
  else if key = "FirstName".data then .ok (.firstName val)
  else if key = "MiddleName".data then .ok (.middleName val)
  else if key = "PayerAddress".data then .ok (.payerAddress val)
  else if key = "PersonalAccount".data then .ok (.personalAccount val)
  else if key = "DocIdx".data then .ok (.docIdx val)
  else if key = "PensAcc".data then .ok (.pensAcc val)
  else if key = "Flat".data then .ok (.flat val)
  else if key = "Phone".data then .ok (.phone val)
  else if key = "PayerIdType".data then .ok (.payerIdType val)
  else if key = "PayerIdNum".data then .ok (.payerIdNum val)
  else if key = "ChildFio".data then .ok (.childFio val)
  else if key = "BirthDate".data then .ok (.birthDate val)
  else if key = "PaymTerm".data then .ok (.paymTerm val)
  else if key = "PaymPeriod".data then .ok (.paymPeriod val)
  else if key = "Category".data then .ok (.category val)
  else if key = "ServiceName".data then .ok (.serviceName val)
  else if key = "CounterId".data then .ok (.counterId val)
  else if key = "CounterVal".data then .ok (.counterVal val)
  else if key = "QuittId".data then .ok (.quittId val)
  else if key = "QuittDate".data then .ok (.quittDate val)
  else if key = "InstNum".data then .ok (.instNum val)
  else if key = "ClassNum".data then .ok (.classNum val)
  else if key = "SpecFio".data then .ok (.specFio val)
  else if key = "AddAmount".data then .ok (.addAmount val)
  else if key = "RuleId".data then .ok (.ruleId val)
  else if key = "ExecId".data then .ok (.execId val)
  else if key = "RegType".data then .ok (.regType val)
  else if key = "UIN".data then .ok (.uin val)
  else if key = "TechCode".data then
    match TechCode.fromStr val with
    | .ok t => .ok (.techCode t)
    | .error e => .error e
  else
    match NoCustomRequisites.tryFrom key val with
    | .ok _ => .ok .custom
    | .error e => .error e

theorem maxSizeString_new_val (n : Nat) (s : MaxSizeString n) :
    MaxSizeString.new n s.1 = some s := by
  unfold MaxSizeString.new
  rw [dif_pos s.2]

theorem exactSizeString_new_val (n : Nat) (s : ExactSizeString n) :
    ExactSizeString.new n s.1 = some s := by
  unfold ExactSizeString.new
  rw [dif_pos s.2]

theorem techCode_fromStr_asStr (t : TechCode) : TechCode.fromStr t.asStr = .ok t := by
  cases t <;> rfl

/-- Constructor index of a requisite (used only to decide equality). -/
def Requisite.ctorIdx : Requisite → Nat
  | .name _ => 0
  | .personalAcc _ => 1
  | .bankName _ => 2
  | .bic _ => 3
  | .correspAcc _ => 4
  | .sum _ => 5
  | .purpose _ => 6
  | .payeeINN _ => 7
  | .payerINN _ => 8
  | .drawerStatus _ => 9
  | .kpp _ => 10
  | .cbc _ => 11
  | .oktmo _ => 12
  | .paytReason _ => 13
  | .taxPeriod _ => 14
  | .docNo _ => 15
  | .docDate _ => 16
  | .taxPayKind _ => 17
  | .lastName _ => 18
  | .firstName _ => 19
  | .middleName _ => 20
  | .payerAddress _ => 21
  | .personalAccount _ => 22
  | .docIdx _ => 23
  | .pensAcc _ => 24
  | .contract _ => 25
  | .persAcc _ => 26
  | .flat _ => 27
  | .phone _ => 28
  | .payerIdType _ => 29
  | .payerIdNum _ => 30
  | .childFio _ => 31
  | .birthDate _ => 32
  | .paymTerm _ => 33
  | .paymPeriod _ => 34
  | .category _ => 35
  | .serviceName _ => 36
  | .counterId _ => 37
  | .counterVal _ => 38
  | .quittId _ => 39
  | .quittDate _ => 40
  | .instNum _ => 41
  | .classNum _ => 42
  | .specFio _ => 43
  | .addAmount _ => 44
  | .ruleId _ => 45
  | .execId _ => 46
  | .regType _ => 47
  | .uin _ => 48
  | .techCode _ => 49
  | .custom => 50

/-- The payload text of a requisite (used only to decide equality). -/
def Requisite.payloadChars (r : Requisite) : List Char := r.value.getD []

/-- Injective encoding of a requisite as index plus payload. -/
def Requisite.enc (r : Requisite) : Nat × List Char := (r.ctorIdx, r.payloadChars)

/-- Left inverse of `Requisite.enc`. -/
def Requisite.dec : Nat × List Char → Option Requisite := fun p =>
  match p.1 with
  | 0 => (MaxSizeString.new 160 p.2).map .name
  | 1 => (ExactSizeString.new 20 p.2).map .personalAcc
  | 2 => (MaxSizeString.new 45 p.2).map .bankName
  | 3 => (ExactSizeString.new 9 p.2).map .bic
  | 4 => (MaxSizeString.new 20 p.2).map .correspAcc
  | 5 => (MaxSizeString.new 18 p.2).map .sum
  | 6 => (MaxSizeString.new 210 p.2).map .purpose
  | 7 => (MaxSizeString.new 12 p.2).map .payeeINN
  | 8 => (MaxSizeString.new 12 p.2).map .payerINN
  | 9 => (MaxSizeString.new 2 p.2).map .drawerStatus
  | 10 => (MaxSizeString.new 9 p.2).map .kpp
  | 11 => (MaxSizeString.new 20 p.2).map .cbc
  | 12 => (MaxSizeString.new 11 p.2).map .oktmo
  | 13 => (MaxSizeString.new 2 p.2).map .paytReason
  | 14 => (MaxSizeString.new 10 p.2).map .taxPeriod
  | 15 => (MaxSizeString.new 15 p.2).map .docNo
  | 16 => (MaxSizeString.new 10 p.2).map .docDate
  | 17 => (MaxSizeString.new 2 p.2).map .taxPayKind
  | 18 => some (.lastName p.2)
  | 19 => some (.firstName p.2)
  | 20 => some (.middleName p.2)
  | 21 => some (.payerAddress p.2)
  | 22 => some (.personalAccount p.2)
  | 23 => some (.docIdx p.2)
  | 24 => some (.pensAcc p.2)
  | 25 => some (.contract p.2)
  | 26 => some (.persAcc p.2)
  | 27 => some (.flat p.2)
  | 28 => some (.phone p.2)
  | 29 => some (.payerIdType p.2)
  | 30 => some (.payerIdNum p.2)
  | 31 => some (.childFio p.2)
  | 32 => some (.birthDate p.2)
  | 33 => some (.paymTerm p.2)
  | 34 => some (.paymPeriod p.2)
  | 35 => some (.category p.2)
  | 36 => some (.serviceName p.2)
  | 37 => some (.counterId p.2)
  | 38 => some (.counterVal p.2)
  | 39 => some (.quittId p.2)
  | 40 => some (.quittDate p.2)
  | 41 => some (.instNum p.2)
  | 42 => some (.classNum p.2)
  | 43 => some (.specFio p.2)
  | 44 => some (.addAmount p.2)
  | 45 => some (.ruleId p.2)
  | 46 => some (.execId p.2)
  | 47 => some (.regType p.2)
  | 48 => some (.uin p.2)
  | 49 => ((TechCode.fromStr p.2).toOption).map .techCode
  | 50 => some .custom
  | _ + 51 => none

theorem Requisite.dec_enc (r : Requisite) : Requisite.dec r.enc = some r := by
  cases r <;>
    simp [Requisite.enc, Requisite.ctorIdx, Requisite.payloadChars, Requisite.value,
      Requisite.dec, maxSizeString_new_val, exactSizeString_new_val,
      techCode_fromStr_asStr, Except.toOption]

instance : DecidableEq Requisite := fun a b =>
  decidable_of_iff (Requisite.enc a = Requisite.enc b)
    ⟨fun h => by
      have ha := Requisite.dec_enc a
      rw [h, Requisite.dec_enc b] at ha
      exact (Option.some_inj.mp ha).symm,
    fun h => by rw [h]⟩

/-- `FORMAT_ID_BYTES` from `src/payment.rs`: the ASCII bytes of `"ST"`. -/
def FORMAT_ID_BYTES : List Nat := [0x53, 0x54]

/-- `VERSION_0001_BYTES` from `src/payment.rs`: the ASCII bytes of `"0001"`. -/
def VERSION_0001_BYTES : List Nat := [0x30, 0x30, 0x30, 0x31]

/-- `PaymentHeader` from `src/payment.rs`. -/
structure PaymentHeader where
  formatId : List Nat
  version : List Nat
  encoding : PaymentEncoding
  separator : Nat
deriving DecidableEq

/-- `RequiredRequisite` from `src/payment.rs` (the field `correstp_acc`
keeps the source's spelling). -/
structure RequiredRequisite where
  name : MaxSizeString 160
  personalAcc : ExactSizeString 20
  bankName : MaxSizeString 45
  bic : ExactSizeString 9
  correstpAcc : MaxSizeString 20
deriving DecidableEq

/-- `Payment<NoCustomRequisites>` from `src/payment.rs`. -/
structure Payment where
  header : PaymentHeader
  requisites : List Requisite
deriving DecidableEq

/-- `PaymentBuilder<NoCustomRequisites>` from `src/payment.rs`. -/
structure PaymentBuilder where
  payment : Payment
deriving DecidableEq

/-- `PaymentBuilder::default` from `src/payment.rs`: `"ST"`, version
`"0001"`, Utf8 charset, separator `b'|'`, no requisites. -/
def PaymentBuilder.default : PaymentBuilder :=
  ⟨⟨⟨FORMAT_ID_BYTES, VERSION_0001_BYTES, .Utf8, 0x7C⟩, []⟩⟩

/-- The `required_requisites` vector seeded by `Payment::builder`. -/
def requiredRequisitesOf (requisites : RequiredRequisite) : List Requisite :=
  [ .name requisites.name
  , .personalAcc requisites.personalAcc
  , .bankName requisites.bankName
  , .bic requisites.bic
  , .correspAcc requisites.correstpAcc ]

/-- `Payment::builder` from `src/payment.rs` (lines 85-101): starts
from the default builder and seeds the five required requisites in
order. -/
def Payment.builder (requisites : RequiredRequisite) : PaymentBuilder :=
  { PaymentBuilder.default with
    payment := { PaymentBuilder.default.payment with
      requisites := requiredRequisitesOf requisites } }

/-- Whether a requisite restates one of the five required kinds (the
conjunction of the five `matches!` checks asserted by
`with_additional_requisites`). -/
def Requisite.isRequiredKind : Requisite → Bool
  | .name _ => true
  | .personalAcc _ => true
  | .bankName _ => true
  | .bic _ => true
  | .correspAcc _ => true
  | _ => false

/-- `PaymentBuilder::with_additional_requisites` from `src/payment.rs`
(lines 47-61): every supplied requisite is checked with `assert!` not
to restate a required kind; a failed assertion is a Rust panic,
modelled as `none`.  Otherwise the requisites are appended after the
existing ones. -/
def PaymentBuilder.withAdditionalRequisites (b : PaymentBuilder)
    (requisites : List Requisite) : Option PaymentBuilder :=
  if requisites.any Requisite.isRequiredKind then none
  else some { b with payment :=
    { b.payment with requisites := b.payment.requisites ++ requisites } }

/-- `PaymentBuilder::build`. -/
def PaymentBuilder.build (b : PaymentBuilder) : Payment := b.payment

/-- The body text `write_to` appends for a list of requisites: for each
requisite the separator, its key, `'='` and its value.  `none` models
the panic of `NoCustomRequisites::key`/`value` on a `Custom`
requisite. -/
def encodeRequisites (separator : Nat) : List Requisite → Option (List Char)
  | [] => some []
  | r :: rs =>
    match r.key, r.value with
    | some k, some v =>
      (encodeRequisites separator rs).map
        (fun rest => Char.ofNat separator :: (k ++ '=' :: v) ++ rest)
    | _, _ => none

/-- `Payment::write_to` from `src/payment.rs` (lines 116-135): pushes
the two format-id bytes, the four version bytes and the encoding
character, then for each requisite the separator, key, `'='` and
value. -/
def Payment.writeTo (p : Payment) : Option (List Char) :=
  (encodeRequisites p.header.separator p.requisites).map
    (fun body =>
      p.header.formatId.map Char.ofNat ++ p.header.version.map Char.ofNat ++
        [p.header.encoding.char] ++ body)

/-- `Payment::to_gost_format`: `write_to` into a fresh buffer. -/
def Payment.toGostFormat (p : Payment) : Option (List Char) := p.writeTo

/-- Rust `str::split(char)`: the list of chunks between occurrences of
`sep` (empty chunks included; splitting the empty text yields one empty
chunk). -/
def splitOnChar (sep : Char) : List Char → List (List Char)
  | [] => [[]]
  | c :: cs =>
    if c = sep then [] :: splitOnChar sep cs
    else
      match splitOnChar sep cs with
      | [] => [[c]]
      | chunk :: rest => (c :: chunk) :: rest

/-- Rust `str::split_once(char)`: splits at the first occurrence of
`sep`, returning the text before and after it, or `none` when `sep`
does not occur. -/
def splitOnce (sep : Char) : List Char → Option (List Char × List Char)
  | [] => none
  | c :: cs =>
    if c = sep then some ([], cs)
    else (splitOnce sep cs).map (fun p => (c :: p.1, p.2))

/-- Number of bytes of the UTF-8 representation of a character. -/
def utf8Size (c : Char) : Nat :=
  if c.toNat < 0x80 then 1
  else if c.toNat < 0x800 then 2
  else if c.toNat < 0x10000 then 3
  else 4

/-- Rust byte-index slicing `val[n..]` on a `str`: drops the first `n`
UTF-8 bytes.  Returns `none` — a Rust panic — when `n` overruns the
text or does not land on a character boundary. -/
def dropUtf8Bytes (cs : List Char) (n : Nat) : Option (List Char) :=
  if n = 0 then some cs
  else
    match cs with
    | [] => none
    | c :: cs => if utf8Size c ≤ n then dropUtf8Bytes cs (n - utf8Size c) else none
termination_by structural cs

/-- The first eight characters of a text narrowed to single bytes:
`val.chars().take(8).map(|c| c as u8)` from `read_payment_header`
(`as u8` keeps the low eight bits of the scalar value). -/
def narrow8 (val : List Char) : List Nat :=
  (val.take 8).map (fun c => c.toNat % 256)

/-- `PaymentParser::read_payment_header_bytes` from `src/parser.rs`
(lines 168-198): checks length, format id, version and encoding byte in
that order and takes byte 7 as the separator. -/
def readPaymentHeaderBytes (versionId : List Nat) (bytes : List Nat) :
    Except Error PaymentHeader :=
  if bytes.length < 8 then
    .error (.corruptedHeader "Не возможно сформировать заголовок, так как длина меньше 8".data)
  else if bytes.take 2 ≠ FORMAT_ID_BYTES then
    .error (.wrongFormatId (bytes.take 2))
  else if (bytes.drop 2).take 4 ≠ versionId then
    .error (.unsupportedVersion ((bytes.drop 2).take 4) versionId)
  else
    match PaymentEncoding.tryFrom (bytes.getD 6 0) with
    | .error e => .error e
    | .ok encoding =>
      .ok ⟨FORMAT_ID_BYTES, versionId, encoding, bytes.getD 7 0⟩

/-- The message `read_payment_header` formats when a text input
declares a non-Utf8 charset. -/
def wrongEncodingMsg (e : PaymentEncoding) : List Char :=
  "Не верная кодировка, должна быть Utf-8, установлена ".data ++ e.display

/-- `PaymentParser::read_payment_header` from `src/parser.rs` (lines
200-215): narrows the first eight characters to bytes, parses them as a
header, and (when `checkEncoding` is set, i.e. for the Strict and
RequisiteTolerant policies) requires the declared charset to be Utf8,
failing `CorruptedHeader` otherwise. -/
def readPaymentHeader (versionId : List Nat) (val : List Char) (checkEncoding : Bool) :
    Except Error PaymentHeader :=
  match readPaymentHeaderBytes versionId (narrow8 val) with
  | .error e => .error e
  | .ok header =>
    if checkEncoding = true ∧ header.encoding ≠ .Utf8 then
      .error (.corruptedHeader (wrongEncodingMsg header.encoding))
    else .ok header

/-- Body of `PaymentParser<StrictParser>::read_requisites` from
`src/parser.rs` (lines 77-85), applied to the already-split chunks.
The source maps each chunk to `split_once('=').ok_or(WrongPair)` and
then `flat_map`s `kv.map(|kv| kv.try_into())` over the resulting
`Result`; since `Result`'s `IntoIterator` yields only the `Ok` value,
a chunk with no `'='` contributes nothing (the `WrongPair` constructor
passed to `ok_or` is discarded), while a failed `try_into` is an
element of the collected `Result` and aborts the whole collection. -/
def strictCollect : List (List Char) → Except Error (List Requisite)
  | [] => .ok []
  | chunk :: rest =>
    match splitOnce '=' chunk with
    | none => strictCollect rest
    | some kv =>
      match Requisite.tryFrom kv.1 kv.2 with
      | .error e => .error e
      | .ok r => (strictCollect rest).map (fun rs => r :: rs)

/-- `PaymentParser<StrictParser>::read_requisites`: split the body on
the separator and collect the chunks. -/
def strictReadRequisites (data : List Char) (separator : Char) :
    Except Error (List Requisite) :=
  strictCollect (splitOnChar separator data)

/-- Body of `PaymentParser<RequisiteToleranceParser>::read_requisites`
from `src/parser.rs` (lines 118-127): chunks with no `'='` and pairs
whose `try_into` fails are silently dropped. -/
def toleranceCollect : List (List Char) → List Requisite
  | [] => []
  | chunk :: rest =>
    match splitOnce '=' chunk with
    | none => toleranceCollect rest
    | some kv =>
      match Requisite.tryFrom kv.1 kv.2 with
      | .error _ => toleranceCollect rest
      | .ok r => r :: toleranceCollect rest

/-- `PaymentParser<RequisiteToleranceParser>::read_requisites`. -/
def toleranceReadRequisites (data : List Char) (separator : Char) : List Requisite :=
  toleranceCollect (splitOnChar separator data)

/-- Body of `PaymentParser<LooseParser>::read_requisites` from
`src/parser.rs` (lines 156-165); textually identical to the
RequisiteTolerant one. -/
def looseCollect : List (List Char) → List Requisite
  | [] => []
  | chunk :: rest =>
    match splitOnce '=' chunk with
    | none => looseCollect rest
    | some kv =>
      match Requisite.tryFrom kv.1 kv.2 with
      | .error _ => looseCollect rest
      | .ok r => r :: looseCollect rest

/-- `PaymentParser<LooseParser>::read_requisites`. -/
def looseReadRequisites (data : List Char) (separator : Char) : List Requisite :=
  looseCollect (splitOnChar separator data)

/-- The `passed` component reported by a failed order check:
`next.map(|r| r.key()).unwrap_or("Пусто")`.  When the offending
requisite is `Custom`, `key()` panics (modelled `none`). -/
def orderPassed : Option Requisite → Option (List Char)
  | none => some "Пусто".data
  | some r => r.key

/-- `matches!(next, Some(Requisite::Name(_)))`. -/
def matchesName : Option Requisite → Bool
  | some (.name _) => true
  | _ => false

/-- `matches!(next, Some(Requisite::PersonalAcc(_)))`. -/
def matchesPersonalAcc : Option Requisite → Bool
  | some (.personalAcc _) => true
  | _ => false

/-- `matches!(next, Some(Requisite::BankName(_)))`. -/
def matchesBankName : Option Requisite → Bool
  | some (.bankName _) => true
  | _ => false

/-- `matches!(next, Some(Requisite::BIC(_)))`. -/
def matchesBIC : Option Requisite → Bool
  | some (.bic _) => true
  | _ => false

/-- `matches!(next, Some(Requisite::CorrespAcc(_)))`. -/
def matchesCorrespAcc : Option Requisite → Bool
  | some (.correspAcc _) => true
  | _ => false

/-- `PaymentParser::validate_required_requisites` from `src/parser.rs`
(lines 237-281): the first five parsed requisites must be exactly
Name, PersonalAcc, BankName, BIC, CorrespAcc; the first mismatch fails
`WrongRequiredRequisiteOrder` with the key found there (or the literal
`"Пусто"` when the sequence is shorter) and the expected key.  The five
`iter.next()` calls are the heads of successive tails.  The outer
`Option` models the `key()` panic on a `Custom` requisite. -/
def validateRequiredRequisites (requisites : List Requisite) :
    Option (Except Error Unit) :=
  if matchesName requisites.head? = false then
    (orderPassed requisites.head?).map
      (fun p => .error (.wrongRequiredRequisiteOrder p "Name".data))
  else if matchesPersonalAcc requisites.tail.head? = false then
    (orderPassed requisites.tail.head?).map
      (fun p => .error (.wrongRequiredRequisiteOrder p "PersonalAcc".data))
  else if matchesBankName requisites.tail.tail.head? = false then
    (orderPassed requisites.tail.tail.head?).map
      (fun p => .error (.wrongRequiredRequisiteOrder p "BankName".data))
  else if matchesBIC requisites.tail.tail.tail.head? = false then
    (orderPassed requisites.tail.tail.tail.head?).map
      (fun p => .error (.wrongRequiredRequisiteOrder p "BIC".data))
  else if matchesCorrespAcc requisites.tail.tail.tail.tail.head? = false then
    (orderPassed requisites.tail.tail.tail.tail.head?).map
      (fun p => .error (.wrongRequiredRequisiteOrder p "CorrespAcc".data))
  else
    some (.ok ())

/-- `PaymentParser<StrictParser>::parse_from_str` from `src/parser.rs`
(lines 46-56): read the header from the first eight characters
(requiring Utf8), byte-slice the body at offset 8 (`val[8..]`, a
possible panic), split and strictly collect the requisites, then
validate the required order.  `none` models a panic. -/
def strictParseFromStr (versionId : List Nat) (val : List Char) :
    Option (Except Error Payment) :=
  match readPaymentHeader versionId val true with
  | .error e => some (.error e)
  | .ok header =>
    match dropUtf8Bytes val 8 with
    | none => none
    | some data =>
      match strictReadRequisites data (Char.ofNat header.separator) with
      | .error e => some (.error e)
      | .ok requisites =>
        match validateRequiredRequisites requisites with
        | none => none
        | some (.error e) => some (.error e)
        | some (.ok _) => some (.ok ⟨header, requisites⟩)

/-- `PaymentParser<RequisiteToleranceParser>::parse_from_str` from
`src/parser.rs` (lines 88-98): like the strict one, but requisite
collection is total; the order check still runs. -/
def toleranceParseFromStr (versionId : List Nat) (val : List Char) :
    Option (Except Error Payment) :=
  match readPaymentHeader versionId val true with
  | .error e => some (.error e)
  | .ok header =>
    match dropUtf8Bytes val 8 with
    | none => none
    | some data =>
      let requisites := toleranceReadRequisites data (Char.ofNat header.separator)
      match validateRequiredRequisites requisites with
      | none => none
      | some (.error e) => some (.error e)
      | some (.ok _) => some (.ok ⟨header, requisites⟩)

/-- `PaymentParser<LooseParser>::parse_from_str` from `src/parser.rs`
(lines 130-138): header read without the Utf8-only check, tolerant
collection, and no order check. -/
def looseParseFromStr (versionId : List Nat) (val : List Char) :
    Option (Except Error Payment) :=
  match readPaymentHeader versionId val false with
  | .error e => some (.error e)
  | .ok header =>
    match dropUtf8Bytes val 8 with
    | none => none
    | some data =>
      some (.ok ⟨header, looseReadRequisites data (Char.ofNat header.separator)⟩)

/-- `encoding::DecoderTrap` (external `encoding` crate): Strict fails
on an unmappable byte, Replace substitutes U+FFFD. -/
inductive DecoderTrap
  | strict
  | replace
deriving DecidableEq

/-- The Unicode replacement character U+FFFD. -/
def replacementChar : Char := Char.ofNat 0xFFFD

/-- Modelled from the external `encoding` crate: the WHATWG
windows-1251 index for bytes 0x80-0xFF (a `0` entry marks the one
undefined byte, 0x98). -/
def win1251Hi : List Nat :=
  [0x0402, 0x0403, 0x201A, 0x0453, 0x201E, 0x2026, 0x2020, 0x2021,
   0x20AC, 0x2030, 0x0409, 0x2039, 0x040A, 0x040C, 0x040B, 0x040F,
   0x0452, 0x2018, 0x2019, 0x201C, 0x201D, 0x2022, 0x2013, 0x2014,
   0, 0x2122, 0x0459, 0x203A, 0x045A, 0x045C, 0x045B, 0x045F,
   0x00A0, 0x040E, 0x045E, 0x0408, 0x00A4, 0x0490, 0x00A6, 0x00A7,
   0x0401, 0x00A9, 0x0404, 0x00AB, 0x00AC, 0x00AD, 0x00AE, 0x0407,
   0x00B0, 0x00B1, 0x0406, 0x0456, 0x0491, 0x00B5, 0x00B6, 0x00B7,
   0x0451, 0x2116, 0x0454, 0x00BB, 0x0458, 0x0405, 0x0455, 0x0457,
   0x0410, 0x0411, 0x0412, 0x0413, 0x0414, 0x0415, 0x0416, 0x0417,
   0x0418, 0x0419, 0x041A, 0x041B, 0x041C, 0x041D, 0x041E, 0x041F,
   0x0420, 0x0421, 0x0422, 0x0423, 0x0424, 0x0425, 0x0426, 0x0427,
   0x0428, 0x0429, 0x042A, 0x042B, 0x042C, 0x042D, 0x042E, 0x042F,
   0x0430, 0x0431, 0x0432, 0x0433, 0x0434, 0x0435, 0x0436, 0x0437,
   0x0438, 0x0439, 0x043A, 0x043B, 0x043C, 0x043D, 0x043E, 0x043F,
   0x0440, 0x0441, 0x0442, 0x0443, 0x0444, 0x0445, 0x0446, 0x0447,
   0x0448, 0x0449, 0x044A, 0x044B, 0x044C, 0x044D, 0x044E, 0x044F]

/-- Modelled from the external `encoding` crate: the KOI8-R index for
bytes 0x80-0xFF (total: every byte is defined). -/
def koi8rHi : List Nat :=
  [0x2500, 0x2502, 0x250C, 0x2510, 0x2514, 0x2518, 0x251C, 0x2524,
   0x252C, 0x2534, 0x253C, 0x2580, 0x2584, 0x2588, 0x258C, 0x2590,
   0x2591, 0x2592, 0x2593, 0x2320, 0x25A0, 0x2219, 0x221A, 0x2248,
   0x2264, 0x2265, 0x00A0, 0x2321, 0x00B0, 0x00B2, 0x00B7, 0x00F7,
   0x2550, 0x2551, 0x2552, 0x0451, 0x2553, 0x2554, 0x2555, 0x2556,
   0x2557, 0x2558, 0x2559, 0x255A, 0x255B, 0x255C, 0x255D, 0x255E,
   0x255F, 0x2560, 0x2561, 0x0401, 0x2562, 0x2563, 0x2564, 0x2565,
   0x2566, 0x2567, 0x2568, 0x2569, 0x256A, 0x256B, 0x256C, 0x00A9,
   0x044E, 0x0430, 0x0431, 0x0446, 0x0434, 0x0435, 0x0444, 0x0433,
   0x0445, 0x0438, 0x0439, 0x043A, 0x043B, 0x043C, 0x043D, 0x043E,
   0x043F, 0x044F, 0x0440, 0x0441, 0x0442, 0x0443, 0x0436, 0x0432,
   0x044C, 0x044B, 0x0437, 0x0448, 0x044D, 0x0449, 0x0447, 0x044A,
   0x042E, 0x0410, 0x0411, 0x0426, 0x0414, 0x0415, 0x0424, 0x0413,
   0x0425, 0x0418, 0x0419, 0x041A, 0x041B, 0x041C, 0x041D, 0x041E,
   0x041F, 0x042F, 0x0420, 0x0421, 0x0422, 0x0423, 0x0416, 0x0412,
   0x042C, 0x042B, 0x0417, 0x0428, 0x042D, 0x0429, 0x0427, 0x042A]

/-- Decode of a single Windows-1251 byte: ASCII bytes map to
themselves; high bytes via the index; `none` for the undefined byte. -/
def win1251DecodeByte (b : Nat) : Option Char :=
  if b < 0x80 then some (Char.ofNat b)
  else
    match win1251Hi.getD (b - 0x80) 0 with
    | 0 => none
    | cp => some (Char.ofNat cp)

/-- Decode of a single KOI8-R byte (total). -/
def koi8rDecodeByte (b : Nat) : Char :=
  if b < 0x80 then Char.ofNat b
  else Char.ofNat (koi8rHi.getD (b - 0x80) 0)

/-- `WINDOWS_1251.decode(bytes, trap)` of the external `encoding`
crate: under the Strict trap an undefined byte fails, under Replace it
becomes U+FFFD. -/
def win1251Decode (trap : DecoderTrap) : List Nat → Except Error (List Char)
  | [] => .ok []
  | b :: bs =>
    match win1251DecodeByte b, trap with
    | some c, _ => (win1251Decode trap bs).map (fun cs => c :: cs)
    | none, .strict => .error .decodingError
    | none, .replace => (win1251Decode trap bs).map (fun cs => replacementChar :: cs)

/-- `KOI8_R.decode(bytes, trap)` of the external `encoding` crate
(total for either trap: KOI8-R defines all 256 bytes). -/
def koi8rDecode (_trap : DecoderTrap) (bytes : List Nat) : Except Error (List Char) :=
  .ok (bytes.map koi8rDecodeByte)

/-- Whether a byte is a UTF-8 continuation byte. -/
def isCont (b : Nat) : Bool := 0x80 ≤ b && b < 0xC0

/-- One step of lossy UTF-8 decoding: given the first byte and the
remaining bytes, the decoded character (or U+FFFD) and how many extra
bytes beyond the first are consumed, following the WHATWG
maximal-subpart rule used by `String::from_utf8_lossy`. -/
def utf8LossyStep (b : Nat) (rest : List Nat) : Char × Nat :=
  if b < 0x80 then (Char.ofNat b, 0)
  else if 0xC2 ≤ b && b ≤ 0xDF then
    match rest with
    | b1 :: _ =>
      if isCont b1 then (Char.ofNat ((b - 0xC0) * 0x40 + (b1 - 0x80)), 1)
      else (replacementChar, 0)
    | [] => (replacementChar, 0)
  else if 0xE0 ≤ b && b ≤ 0xEF then
    let lo := if b = 0xE0 then 0xA0 else 0x80
    let hi := if b = 0xED then 0x9F else 0xBF
    match rest with
    | b1 :: b2 :: _ =>
      if lo ≤ b1 && b1 ≤ hi then
        if isCont b2 then
          (Char.ofNat ((b - 0xE0) * 0x1000 + (b1 - 0x80) * 0x40 + (b2 - 0x80)), 2)
        else (replacementChar, 1)
      else (replacementChar, 0)
    | [b1] =>
      if lo ≤ b1 && b1 ≤ hi then (replacementChar, 1) else (replacementChar, 0)
    | [] => (replacementChar, 0)
  else if 0xF0 ≤ b && b ≤ 0xF4 then
    let lo := if b = 0xF0 then 0x90 else 0x80
    let hi := if b = 0xF4 then 0x8F else 0xBF
    match rest with
    | b1 :: b2 :: b3 :: _ =>
      if lo ≤ b1 && b1 ≤ hi then
        if isCont b2 then
          if isCont b3 then
            (Char.ofNat ((b - 0xF0) * 0x40000 + (b1 - 0x80) * 0x1000 +
              (b2 - 0x80) * 0x40 + (b3 - 0x80)), 3)
          else (replacementChar, 2)
        else (replacementChar, 1)
      else (replacementChar, 0)
    | [b1, b2] =>
      if lo ≤ b1 && b1 ≤ hi then
        if isCont b2 then (replacementChar, 2) else (replacementChar, 1)
      else (replacementChar, 0)
    | [b1] =>
      if lo ≤ b1 && b1 ≤ hi then (replacementChar, 1) else (replacementChar, 0)
    | [] => (replacementChar, 0)
  else (replacementChar, 0)

/-- Fuel-driven loop of the lossy UTF-8 decoder; the fuel is an upper
bound on the number of characters produced (one per step, each step
consuming at least one byte). -/
def utf8LossyGo : Nat → List Nat → List Char
  | 0, _ => []
  | _ + 1, [] => []
  | fuel + 1, b :: bs =>
    let step := utf8LossyStep b bs
    step.1 :: utf8LossyGo fuel (bs.drop step.2)

/-- Modelled from the external standard library:
`String::from_utf8_lossy` — the always-succeeding lossy UTF-8
conversion used by the Loose policy for Utf8 bodies.  Total by
construction. -/
def utf8DecodeLossy (bytes : List Nat) : List Char :=
  utf8LossyGo bytes.length bytes

/-- `PaymentParser::decode_payment_body` from `src/parser.rs` (lines
217-235): dispatches on the header charset; Windows-1251 and KOI8-R go
through the `encoding` crate with the given trap, Utf8 through the
supplied function. -/
def decodePaymentBody (encoding : PaymentEncoding) (bytes : List Nat)
    (trap : DecoderTrap) (utf8Decode : List Nat → Except Error (List Char)) :
    Except Error (List Char) :=
  match encoding with
  | .Win1251 => win1251Decode trap bytes
  | .Utf8 => utf8Decode bytes
  | .Koi8R => koi8rDecode trap bytes

/-- `PaymentParser<LooseParser>::parse_from_bytes` from `src/parser.rs`
(lines 140-153): header from the raw bytes, body decoded with the
Replace trap (lossy conversion for Utf8), tolerant collection, no
order check.  No byte-slice panic is possible: the header check
guarantees at least eight bytes. -/
def looseParseFromBytes (versionId : List Nat) (bytes : List Nat) :
    Except Error Payment :=
  match readPaymentHeaderBytes versionId bytes with
  | .error e => .error e
  | .ok header =>
    match decodePaymentBody header.encoding (bytes.drop 8) .replace
        (fun bs => .ok (utf8DecodeLossy bs)) with
    | .error e => .error e
    | .ok data =>
      .ok ⟨header, looseReadRequisites data (Char.ofNat header.separator)⟩

/-! ## Analysis helpers -/

/-- Whether a requisite is the `Custom` variant (whose `key`/`value`
panic under `NoCustomRequisites`). -/
def Requisite.isCustom : Requisite → Bool
  | .custom => true
  | _ => false

/-- Whether re-parsing `key=value` can reproduce the requisite: false
exactly for `Custom` (no key/value) and for `Contract` / `PersAcc`,
whose wire keys are missing from the `TryFrom` match in
`src/payment.rs` and therefore fall through to the extension point. -/
def Requisite.reparses : Requisite → Bool
  | .contract _ => false
  | .persAcc _ => false
  | .custom => false
  | _ => true

/-- The wire keys the amended claims quantify over for TechCode. -/
def techCodeStrings : List (List Char) :=
  ["01".data, "02".data, "03".data, "04".data, "05".data, "06".data, "07".data,
   "08".data, "09".data, "10".data, "11".data, "12".data, "13".data, "14".data,
   "15".data]

/-! ## Helper lemmas -/

theorem key_of_not_custom (r : Requisite) (h : r.isCustom = false) :
    ∃ k, r.key = some k := by
  cases r <;> first | exact ⟨_, rfl⟩ | exact Bool.noConfusion h

theorem value_of_not_custom (r : Requisite) (h : r.isCustom = false) :
    ∃ v, r.value = some v := by
  cases r <;> first | exact ⟨_, rfl⟩ | exact Bool.noConfusion h

theorem not_custom_of_reparses (r : Requisite) (h : r.reparses = true) :
    r.isCustom = false := by
  cases r <;> first | rfl | exact Bool.noConfusion h

theorem key_no_special (r : Requisite) (k : List Char) (hk : r.key = some k) :
    '|' ∉ k ∧ '=' ∉ k := by
  cases r <;> simp [Requisite.key] at hk <;> subst hk <;> decide

theorem tryFrom_key_value (r : Requisite) (hr : r.reparses = true)
    (k v : List Char) (hk : r.key = some k) (hv : r.value = some v) :
    Requisite.tryFrom k v = .ok r := by
  cases r <;>
    (try (simp [Requisite.reparses] at hr)) <;>
    simp [Requisite.key] at hk <;>
    simp [Requisite.value] at hv <;>
    subst hk <;> subst hv <;>
    first
      | rfl
      | simp [Requisite.tryFrom, maxSizeString_new_val, exactSizeString_new_val,
          techCode_fromStr_asStr]

/-- The `key=value` chunk a requisite contributes to the encoded body. -/
def chunkOf (r : Requisite) : List Char := r.key.getD [] ++ '=' :: r.value.getD []

/-- Separator-prefixed concatenation: what `write_to` emits for a list
of chunks. -/
def sepJoin (sep : Char) : List (List Char) → List Char
  | [] => []
  | c :: cs => sep :: c ++ sepJoin sep cs

theorem splitOnChar_no_sep (sep : Char) (c : List Char) (h : sep ∉ c) :
    splitOnChar sep c = [c] := by
  induction c with
  | nil => rfl
  | cons a t ih =>
    simp only [List.mem_cons, not_or] at h
    simp only [splitOnChar]
    rw [if_neg (fun hh => h.1 hh.symm), ih h.2]

theorem splitOnChar_append_sep (sep : Char) (c t : List Char) (h : sep ∉ c) :
    splitOnChar sep (c ++ sep :: t) = c :: splitOnChar sep t := by
  induction c with
  | nil => simp [splitOnChar]
  | cons a cs ih =>
    simp only [List.mem_cons, not_or] at h
    simp only [List.cons_append, splitOnChar, List.append_eq]
    rw [if_neg (fun hh => h.1 hh.symm), ih h.2]

theorem splitOnce_append (k v : List Char) (h : '=' ∉ k) :
    splitOnce '=' (k ++ '=' :: v) = some (k, v) := by
  induction k with
  | nil => simp [splitOnce]
  | cons a t ih =>
    simp only [List.mem_cons, not_or] at h
    simp only [List.cons_append, splitOnce, List.append_eq]
    rw [if_neg (fun hh => h.1 hh.symm), ih h.2]
    rfl

theorem encodeRequisites_eq (rs : List Requisite)
    (h : ∀ r ∈ rs, r.isCustom = false) :
    encodeRequisites 0x7C rs = some (sepJoin '|' (rs.map chunkOf)) := by
  induction rs with
  | nil => rfl
  | cons r t ih =>
    obtain ⟨k, hk⟩ := key_of_not_custom r (h r (by simp))
    obtain ⟨v, hv⟩ := value_of_not_custom r (h r (by simp))
    simp only [encodeRequisites, hk, hv]
    rw [ih (fun x hx => h x (by simp [hx]))]
    simp [sepJoin, chunkOf, hk, hv]

theorem splitOnChar_sepJoin (chunks : List (List Char)) (c : List Char)
    (hc : '|' ∉ c) (h : ∀ ch ∈ chunks, '|' ∉ ch) :
    splitOnChar '|' (c ++ sepJoin '|' chunks) = c :: chunks := by
  induction chunks generalizing c with
  | nil => simpa [sepJoin] using splitOnChar_no_sep '|' c hc
  | cons ch t ih =>
    rw [show c ++ sepJoin '|' (ch :: t) = c ++ '|' :: (ch ++ sepJoin '|' t) from by
      simp [sepJoin]]
    rw [splitOnChar_append_sep '|' c _ hc,
      ih ch (h ch (by simp)) (fun x hx => h x (by simp [hx]))]

theorem chunkOf_no_sep (r : Requisite) (hr : r.reparses = true)
    (hv : ∀ v, r.value = some v → '|' ∉ v) : '|' ∉ chunkOf r := by
  have hcust := not_custom_of_reparses r hr
  obtain ⟨k, hk⟩ := key_of_not_custom r hcust
  obtain ⟨v, hval⟩ := value_of_not_custom r hcust
  have hks := key_no_special r k hk
  intro hmem
  rw [show chunkOf r = k ++ '=' :: v from by simp [chunkOf, hk, hval]] at hmem
  rcases List.mem_append.1 hmem with h1 | h1
  · exact hks.1 h1
  · rcases List.mem_cons.1 h1 with h2 | h2
    · exact absurd h2 (by decide)
    · exact hv v hval h2

theorem strictCollect_map_chunkOf (rs : List Requisite)
    (h : ∀ r ∈ rs, r.reparses = true) :
    strictCollect (rs.map chunkOf) = .ok rs := by
  induction rs with
  | nil => rfl
  | cons r t ih =>
    have hr := h r (by simp)
    have hcust := not_custom_of_reparses r hr
    obtain ⟨k, hk⟩ := key_of_not_custom r hcust
    obtain ⟨v, hv⟩ := value_of_not_custom r hcust
    have hks := key_no_special r k hk
    simp only [List.map_cons, strictCollect]
    rw [show chunkOf r = k ++ '=' :: v from by simp [chunkOf, hk, hv]]
    rw [splitOnce_append k v hks.2]
    simp only [tryFrom_key_value r hr k v hk hv]
    rw [ih (fun x hx => h x (by simp [hx]))]
    rfl

theorem readHeader_encoded (rest : List Char) :
    readPaymentHeader VERSION_0001_BYTES
      (['S', 'T', '0', '0', '0', '1', '2'] ++ '|' :: rest) true =
      .ok ⟨FORMAT_ID_BYTES, VERSION_0001_BYTES, .Utf8, 0x7C⟩ := by
  rfl

theorem dropUtf8Bytes_zero (cs : List Char) : dropUtf8Bytes cs 0 = some cs := by
  rw [dropUtf8Bytes.eq_def]
  simp

theorem dropUtf8Bytes_ascii (c : Char) (cs : List Char) (n : Nat)
    (hc : utf8Size c = 1) (hn : n ≠ 0) :
    dropUtf8Bytes (c :: cs) n = dropUtf8Bytes cs (n - 1) := by
  rw [dropUtf8Bytes.eq_def, if_neg hn]
  simp [hc, Nat.one_le_iff_ne_zero.mpr hn]

theorem drop8_encoded (rest : List Char) :
    dropUtf8Bytes (['S', 'T', '0', '0', '0', '1', '2'] ++ '|' :: rest) 8 =
      some rest := by
  show dropUtf8Bytes ('S' :: 'T' :: '0' :: '0' :: '0' :: '1' :: '2' :: '|' :: rest) 8 =
    some rest
  rw [dropUtf8Bytes_ascii _ _ _ (by decide) (by decide),
    dropUtf8Bytes_ascii _ _ _ (by decide) (by decide),
    dropUtf8Bytes_ascii _ _ _ (by decide) (by decide),
    dropUtf8Bytes_ascii _ _ _ (by decide) (by decide),
    dropUtf8Bytes_ascii _ _ _ (by decide) (by decide),
    dropUtf8Bytes_ascii _ _ _ (by decide) (by decide),
    dropUtf8Bytes_ascii _ _ _ (by decide) (by decide),
    dropUtf8Bytes_ascii _ _ _ (by decide) (by decide)]
  exact dropUtf8Bytes_zero rest

theorem validate_required_prefix (a : MaxSizeString 160) (b : ExactSizeString 20)
    (c : MaxSizeString 45) (d : ExactSizeString 9) (e : MaxSizeString 20)
    (rest : List Requisite) :
    validateRequiredRequisites
      (.name a :: .personalAcc b :: .bankName c :: .bic d :: .correspAcc e :: rest) =
      some (.ok ()) := by
  rfl

theorem strictParse_encoded (a : MaxSizeString 160) (b : ExactSizeString 20)
    (c : MaxSizeString 45) (d : ExactSizeString 9) (e : MaxSizeString 20)
    (rest : List Requisite)
    (hrep : ∀ r ∈ (Requisite.name a :: .personalAcc b :: .bankName c :: .bic d ::
      .correspAcc e :: rest : List Requisite), r.reparses = true)
    (hsep : ∀ r ∈ (Requisite.name a :: .personalAcc b :: .bankName c :: .bic d ::
      .correspAcc e :: rest : List Requisite), ∀ v, r.value = some v → '|' ∉ v) :
    strictParseFromStr VERSION_0001_BYTES
      (['S', 'T', '0', '0', '0', '1', '2'] ++
        sepJoin '|' ((Requisite.name a :: .personalAcc b :: .bankName c :: .bic d ::
          .correspAcc e :: rest : List Requisite).map chunkOf)) =
      some (.ok ⟨⟨FORMAT_ID_BYTES, VERSION_0001_BYTES, .Utf8, 0x7C⟩,
        .name a :: .personalAcc b :: .bankName c :: .bic d :: .correspAcc e :: rest⟩) := by
  have hchunks : ∀ ch ∈ ((Requisite.personalAcc b :: .bankName c :: .bic d ::
      .correspAcc e :: rest : List Requisite).map chunkOf), '|' ∉ ch := by
    intro ch hch
    rw [List.mem_map] at hch
    obtain ⟨r, hr, rfl⟩ := hch
    exact chunkOf_no_sep r (hrep r (by simp [hr])) (fun v hv => hsep r (by simp [hr]) v hv)
  have hc1 : '|' ∉ chunkOf (Requisite.name a) :=
    chunkOf_no_sep _ (hrep _ (by simp)) (fun v hv => hsep _ (by simp) v hv)
  have hsplit : splitOnChar '|'
      (chunkOf (Requisite.name a) ++ sepJoin '|'
        ((Requisite.personalAcc b :: .bankName c :: .bic d ::
          .correspAcc e :: rest : List Requisite).map chunkOf)) =
      (Requisite.name a :: .personalAcc b :: .bankName c :: .bic d ::
        .correspAcc e :: rest : List Requisite).map chunkOf := by
    rw [splitOnChar_sepJoin _ _ hc1 hchunks]
    rfl
  have hcollect := strictCollect_map_chunkOf
    (Requisite.name a :: .personalAcc b :: .bankName c :: .bic d :: .correspAcc e :: rest)
    hrep
  show strictParseFromStr VERSION_0001_BYTES
      (['S', 'T', '0', '0', '0', '1', '2'] ++ '|' ::
        (chunkOf (Requisite.name a) ++ sepJoin '|'
          ((Requisite.personalAcc b :: .bankName c :: .bic d ::
            .correspAcc e :: rest : List Requisite).map chunkOf))) = _
  simp only [strictParseFromStr, readHeader_encoded, drop8_encoded, strictReadRequisites,
    show Char.ofNat 0x7C = '|' from rfl, hsplit, hcollect, validate_required_prefix]

theorem roundtrip_general (req : RequiredRequisite) (adds : List Requisite)
    (hkinds : ∀ r ∈ adds, r.isRequiredKind = false)
    (hrep : ∀ r ∈ adds, r.reparses = true)
    (hsep : ∀ r ∈ requiredRequisitesOf req ++ adds, ∀ v, r.value = some v → '|' ∉ v) :
    ∃ b s, (Payment.builder req).withAdditionalRequisites adds = some b ∧
      b.build.toGostFormat = some s ∧
      strictParseFromStr VERSION_0001_BYTES s = some (.ok b.build) := by
  have hany : adds.any Requisite.isRequiredKind = false :=
    List.any_eq_false.mpr (fun r hr => by simp [hkinds r hr])
  have hrepAll : ∀ r ∈ requiredRequisitesOf req ++ adds, r.reparses = true := by
    intro r hr
    rcases List.mem_append.1 hr with h | h
    · simp [requiredRequisitesOf] at h
      rcases h with rfl | rfl | rfl | rfl | rfl <;> rfl
    · exact hrep r h
  have hcustAll : ∀ r ∈ requiredRequisitesOf req ++ adds, r.isCustom = false :=
    fun r hr => not_custom_of_reparses r (hrepAll r hr)
  refine ⟨⟨⟨⟨FORMAT_ID_BYTES, VERSION_0001_BYTES, .Utf8, 0x7C⟩,
      requiredRequisitesOf req ++ adds⟩⟩,
    ['S', 'T', '0', '0', '0', '1', '2'] ++
      sepJoin '|' ((requiredRequisitesOf req ++ adds).map chunkOf), ?_, ?_, ?_⟩
  · simp [PaymentBuilder.withAdditionalRequisites, hany, Payment.builder,
      PaymentBuilder.default]
  · simp only [PaymentBuilder.build, Payment.toGostFormat, Payment.writeTo,
      encodeRequisites_eq _ hcustAll, Option.map_some]
    rfl
  · exact strictParse_encoded req.name req.personalAcc req.bankName req.bic
      req.correstpAcc adds hrepAll hsep

/-- The required-kind test at each of the five checked positions. -/
def kindMatchesAt : Nat → Option Requisite → Bool
  | 0, o => matchesName o
  | 1, o => matchesPersonalAcc o
  | 2, o => matchesBankName o
  | 3, o => matchesBIC o
  | 4, o => matchesCorrespAcc o
  | _ + 5, _ => true

/-- The wire key expected at each of the five checked positions. -/
def requiredKeyAt (i : Nat) : List Char :=
  ["Name".data, "PersonalAcc".data, "BankName".data, "BIC".data,
    "CorrespAcc".data].getD i []

/-- The order check as worded by the claim (with the placeholder
amended to the literal the code uses): inspect positions 0-4 of the
parsed field sequence; on the first mismatch report the key of the
field actually found at that position — or the literal `"Пусто"` when
the sequence is shorter — together with the key expected there. -/
def validateSpec (requisites : List Requisite) : Except Error Unit :=
  match (List.range 5).find? (fun i => ! kindMatchesAt i requisites[i]?) with
  | none => .ok ()
  | some i => .error (.wrongRequiredRequisiteOrder
      ((requisites[i]?.bind Requisite.key).getD "Пусто".data) (requiredKeyAt i))

theorem matchesName_none : matchesName none = false := rfl

theorem matchesPersonalAcc_none : matchesPersonalAcc none = false := rfl

theorem matchesBankName_none : matchesBankName none = false := rfl

theorem matchesBIC_none : matchesBIC none = false := rfl

theorem matchesCorrespAcc_none : matchesCorrespAcc none = false := rfl

theorem validate_eq_spec (rs : List Requisite) (hc : ∀ r ∈ rs, r.isCustom = false) :
    validateRequiredRequisites rs = some (validateSpec rs) := by
  have hrange : List.range 5 = [0, 1, 2, 3, 4] := by decide
  rcases rs with _ | ⟨r0, _ | ⟨r1, _ | ⟨r2, _ | ⟨r3, _ | ⟨r4, rest⟩⟩⟩⟩⟩
  · rfl
  · obtain ⟨k0, hk0⟩ := key_of_not_custom r0 (hc r0 (by simp))
    by_cases m0 : matchesName (some r0) <;>
      simp [validateRequiredRequisites, validateSpec, kindMatchesAt, requiredKeyAt,
        orderPassed, List.find?, hrange, matchesName_none, matchesPersonalAcc_none,
        matchesBankName_none, matchesBIC_none, matchesCorrespAcc_none, m0, hk0]
  · obtain ⟨k0, hk0⟩ := key_of_not_custom r0 (hc r0 (by simp))
    obtain ⟨k1, hk1⟩ := key_of_not_custom r1 (hc r1 (by simp))
    by_cases m0 : matchesName (some r0) <;>
      by_cases m1 : matchesPersonalAcc (some r1) <;>
      simp [validateRequiredRequisites, validateSpec, kindMatchesAt, requiredKeyAt,
        orderPassed, List.find?, hrange, matchesName_none, matchesPersonalAcc_none,
        matchesBankName_none, matchesBIC_none, matchesCorrespAcc_none, m0, m1, hk0, hk1]
  · obtain ⟨k0, hk0⟩ := key_of_not_custom r0 (hc r0 (by simp))
    obtain ⟨k1, hk1⟩ := key_of_not_custom r1 (hc r1 (by simp))
    obtain ⟨k2, hk2⟩ := key_of_not_custom r2 (hc r2 (by simp))
    by_cases m0 : matchesName (some r0) <;>
      by_cases m1 : matchesPersonalAcc (some r1) <;>
      by_cases m2 : matchesBankName (some r2) <;>
      simp [validateRequiredRequisites, validateSpec, kindMatchesAt, requiredKeyAt,
        orderPassed, List.find?, hrange, matchesName_none, matchesPersonalAcc_none,
        matchesBankName_none, matchesBIC_none, matchesCorrespAcc_none, m0, m1, m2, hk0, hk1, hk2]
  · obtain ⟨k0, hk0⟩ := key_of_not_custom r0 (hc r0 (by simp))
    obtain ⟨k1, hk1⟩ := key_of_not_custom r1 (hc r1 (by simp))
    obtain ⟨k2, hk2⟩ := key_of_not_custom r2 (hc r2 (by simp))
    obtain ⟨k3, hk3⟩ := key_of_not_custom r3 (hc r3 (by simp))
    by_cases m0 : matchesName (some r0) <;>
      by_cases m1 : matchesPersonalAcc (some r1) <;>
      by_cases m2 : matchesBankName (some r2) <;>
      by_cases m3 : matchesBIC (some r3) <;>
      simp [validateRequiredRequisites, validateSpec, kindMatchesAt, requiredKeyAt,
        orderPassed, List.find?, hrange, matchesName_none, matchesPersonalAcc_none,
        matchesBankName_none, matchesBIC_none, matchesCorrespAcc_none, m0, m1, m2, m3, hk0, hk1, hk2, hk3]
  · obtain ⟨k0, hk0⟩ := key_of_not_custom r0 (hc r0 (by simp))
    obtain ⟨k1, hk1⟩ := key_of_not_custom r1 (hc r1 (by simp))
    obtain ⟨k2, hk2⟩ := key_of_not_custom r2 (hc r2 (by simp))
    obtain ⟨k3, hk3⟩ := key_of_not_custom r3 (hc r3 (by simp))
    obtain ⟨k4, hk4⟩ := key_of_not_custom r4 (hc r4 (by simp))
    by_cases m0 : matchesName (some r0) <;>
      by_cases m1 : matchesPersonalAcc (some r1) <;>
      by_cases m2 : matchesBankName (some r2) <;>
      by_cases m3 : matchesBIC (some r3) <;>
      by_cases m4 : matchesCorrespAcc (some r4) <;>
      simp [validateRequiredRequisites, validateSpec, kindMatchesAt, requiredKeyAt,
        orderPassed, List.find?, hrange, matchesName_none, matchesPersonalAcc_none,
        matchesBankName_none, matchesBIC_none, matchesCorrespAcc_none, m0, m1, m2, m3, m4, hk0, hk1, hk2, hk3, hk4]


theorem win1251Decode_replace_total (bytes : List Nat) :
    ∃ cs, win1251Decode .replace bytes = .ok cs := by
  induction bytes with
  | nil => exact ⟨[], rfl⟩
  | cons b bs ih =>
    obtain ⟨cs, hcs⟩ := ih
    cases h : win1251DecodeByte b with
    | some c => exact ⟨c :: cs, by simp [win1251Decode, h, hcs, Except.map]⟩
    | none => exact ⟨replacementChar :: cs, by simp [win1251Decode, h, hcs, Except.map]⟩

theorem decodePaymentBody_replace_total (encoding : PaymentEncoding) (bytes : List Nat) :
    ∃ cs, decodePaymentBody encoding bytes .replace
      (fun bs => .ok (utf8DecodeLossy bs)) = .ok cs := by
  cases encoding
  · exact win1251Decode_replace_total bytes
  · exact ⟨_, rfl⟩
  · exact ⟨_, rfl⟩

/-! ## Concrete values used by witnesses and counterexamples -/

/-- A concrete set of valid required requisites. -/
def sampleReq : RequiredRequisite :=
  ⟨⟨"ACME".data, by decide⟩, ⟨"12345678901234567890".data, by decide⟩,
   ⟨"Bank".data, by decide⟩, ⟨"044525225".data, by decide⟩,
   ⟨"30101810400000000225".data, by decide⟩⟩

/-- The builder state after adding a LastName whose value contains the
separator character. -/
def cexSepBuilder : PaymentBuilder :=
  ⟨⟨⟨FORMAT_ID_BYTES, VERSION_0001_BYTES, .Utf8, 0x7C⟩,
    requiredRequisitesOf sampleReq ++ [.lastName "a|b".data]⟩⟩

/-- The builder state after adding a Contract requisite. -/
def cexContractBuilder : PaymentBuilder :=
  ⟨⟨⟨FORMAT_ID_BYTES, VERSION_0001_BYTES, .Utf8, 0x7C⟩,
    requiredRequisitesOf sampleReq ++ [.contract "x".data]⟩⟩


/-! ## Claims -/

/-- Claim C1 (amended): for every Payment constructed via
`Payment::builder` (default Utf8 encoding and default separator) from
any required requisites and any list of additional requisites —
provided additionally that no requisite value contains the separator
character `'|'` and that no additional requisite is a `Contract`,
`PersAcc` or `Custom` requisite — parsing the string produced by
`to_gost_format` with the default Strict parser (same version) returns
`Ok` of a Payment equal to the original. -/
theorem C1_roundtrip_amended (req : RequiredRequisite) (adds : List Requisite)
    (hkinds : ∀ r ∈ adds, r.isRequiredKind = false)
    (hrep : ∀ r ∈ adds, r.reparses = true)
    (hsep : ∀ r ∈ requiredRequisitesOf req ++ adds, ∀ v, r.value = some v → '|' ∉ v) :
    ∃ b s, (Payment.builder req).withAdditionalRequisites adds = some b ∧
      b.build.toGostFormat = some s ∧
      strictParseFromStr VERSION_0001_BYTES s = some (.ok b.build) :=
  roundtrip_general req adds hkinds hrep hsep

/-- Claim C1 is false as stated: a builder-made Payment whose LastName
value contains the separator decodes to a different Payment (the
chunk after the stray separator is dropped), and one with a Contract
requisite fails to decode at all, because the `TryFrom` match in
`src/payment.rs` has no arm for the `"Contract"` key. -/
theorem C1_counterexample :
    ((Payment.builder sampleReq).withAdditionalRequisites [.lastName "a|b".data] =
        some cexSepBuilder ∧
      cexSepBuilder.build.toGostFormat =
        some "ST00012|Name=ACME|PersonalAcc=12345678901234567890|BankName=Bank|BIC=044525225|CorrespAcc=30101810400000000225|LastName=a|b".data ∧
      strictParseFromStr VERSION_0001_BYTES
          "ST00012|Name=ACME|PersonalAcc=12345678901234567890|BankName=Bank|BIC=044525225|CorrespAcc=30101810400000000225|LastName=a|b".data ≠
        some (.ok cexSepBuilder.build)) ∧
    ((Payment.builder sampleReq).withAdditionalRequisites [.contract "x".data] =
        some cexContractBuilder ∧
      cexContractBuilder.build.toGostFormat =
        some "ST00012|Name=ACME|PersonalAcc=12345678901234567890|BankName=Bank|BIC=044525225|CorrespAcc=30101810400000000225|Contract=x".data ∧
      strictParseFromStr VERSION_0001_BYTES
          "ST00012|Name=ACME|PersonalAcc=12345678901234567890|BankName=Bank|BIC=044525225|CorrespAcc=30101810400000000225|Contract=x".data =
        some (.error (.unknownPair "Contract".data "x".data))) := by
  decide

/-- Witness for C1: the amended round trip at a concrete Payment. -/
theorem C1_roundtrip_witness :
    ∃ b s, (Payment.builder sampleReq).withAdditionalRequisites
        [.lastName "Smith".data] = some b ∧
      b.build.toGostFormat = some s ∧
      strictParseFromStr VERSION_0001_BYTES s = some (.ok b.build) :=
  C1_roundtrip_amended sampleReq [.lastName "Smith".data] (by decide) (by decide)
    (by
      intro r hr v hv
      simp [requiredRequisitesOf, sampleReq] at hr
      rcases hr with rfl | rfl | rfl | rfl | rfl | rfl <;>
        simp [Requisite.value] at hv <;> subst hv <;> decide)

/-- Claim C2 (code evaluation): under the Strict policy an input whose
header parses and whose body contains the chunk `garbage` (no `=`)
decodes to `Ok` with the chunk silently dropped, instead of failing the
whole decode with `WrongPair`: the `flat_map` over the intermediate
`Result` in `PaymentParser<StrictParser>::read_requisites` discards the
error value (the `WrongPair` constructor handed to `ok_or` is never
even applied). -/
theorem C2_code_eval :
    strictParseFromStr VERSION_0001_BYTES
        "ST00012|Name=ACME|PersonalAcc=12345678901234567890|BankName=Bank|BIC=044525225|CorrespAcc=30101810400000000225|garbage".data =
      some (.ok ⟨⟨FORMAT_ID_BYTES, VERSION_0001_BYTES, .Utf8, 0x7C⟩,
        requiredRequisitesOf sampleReq⟩) := by
  decide

/-- Claim C3 is false as stated: when the parsed sequence is shorter
than five fields the reported `passed` component is the literal
`"Пусто"`, which is neither the claimed literal `"empty"` nor any wire
key. -/
theorem C3_counterexample :
    strictParseFromStr VERSION_0001_BYTES "ST00012|".data =
      some (.error (.wrongRequiredRequisiteOrder "Пусто".data "Name".data)) ∧
    "Пусто".data ≠ "empty".data ∧ "Пусто".data ∉ wireKeys := by
  decide

/-- Claim C3 (amended): whenever the required-field order check runs on
a sequence free of Custom requisites, its result is exactly the
claim's first-mismatch rule with the placeholder literal `"Пусто"`
(`validateSpec`); in particular swapping Name and PersonalAcc makes
both the Strict and the RequisiteTolerant decoder fail with
`WrongRequiredRequisiteOrder` carrying passed `"PersonalAcc"` and
expected `"Name"`. -/
theorem C3_order_amended :
    (∀ rs : List Requisite, (∀ r ∈ rs, r.isCustom = false) →
      validateRequiredRequisites rs = some (validateSpec rs)) ∧
    strictParseFromStr VERSION_0001_BYTES
        "ST00012|PersonalAcc=12345678901234567890|Name=ACME|BankName=Bank|BIC=044525225|CorrespAcc=30101810400000000225".data =
      some (.error (.wrongRequiredRequisiteOrder "PersonalAcc".data "Name".data)) ∧
    toleranceParseFromStr VERSION_0001_BYTES
        "ST00012|PersonalAcc=12345678901234567890|Name=ACME|BankName=Bank|BIC=044525225|CorrespAcc=30101810400000000225".data =
      some (.error (.wrongRequiredRequisiteOrder "PersonalAcc".data "Name".data)) :=
  ⟨validate_eq_spec, by decide, by decide⟩

/-- Witness for C3: the amended order check evaluated at a concrete
sequence whose first field is not Name. -/
theorem C3_order_witness :
    validateRequiredRequisites [.lastName "X".data] =
      some (validateSpec [.lastName "X".data]) ∧
    validateSpec [.lastName "X".data] =
      .error (.wrongRequiredRequisiteOrder "LastName".data "Name".data) :=
  ⟨C3_order_amended.1 [.lastName "X".data] (by decide), by decide⟩


/-- Claim C4: for every byte input and every configured version (the
header reader is shared by all policies), header decoding fails
`CorruptedHeader` on fewer than 8 bytes; otherwise `WrongFormatId`
when bytes 0-1 are not `"ST"`; otherwise `UnsupportedVersion(passed,
current)` when bytes 2-5 differ from the configured version; otherwise
`UnknownEncodingCode` when byte 6 is none of `'1'`, `'2'`, `'3'`
(which map to Win1251, Utf8 and Koi8R respectively); otherwise it
succeeds with byte 7 taken as the separator. -/
theorem C4_header (versionId bytes : List Nat) :
    (bytes.length < 8 →
      readPaymentHeaderBytes versionId bytes =
        .error (.corruptedHeader
          "Не возможно сформировать заголовок, так как длина меньше 8".data)) ∧
    (¬ bytes.length < 8 → bytes.take 2 ≠ FORMAT_ID_BYTES →
      readPaymentHeaderBytes versionId bytes =
        .error (.wrongFormatId (bytes.take 2))) ∧
    (¬ bytes.length < 8 → bytes.take 2 = FORMAT_ID_BYTES →
      (bytes.drop 2).take 4 ≠ versionId →
      readPaymentHeaderBytes versionId bytes =
        .error (.unsupportedVersion ((bytes.drop 2).take 4) versionId)) ∧
    (¬ bytes.length < 8 → bytes.take 2 = FORMAT_ID_BYTES →
      (bytes.drop 2).take 4 = versionId →
      bytes.getD 6 0 ∉ [0x31, 0x32, 0x33] →
      readPaymentHeaderBytes versionId bytes =
        .error (.unknownEncodingCode (bytes.getD 6 0))) ∧
    (¬ bytes.length < 8 → bytes.take 2 = FORMAT_ID_BYTES →
      (bytes.drop 2).take 4 = versionId →
      ∀ e, PaymentEncoding.tryFrom (bytes.getD 6 0) = .ok e →
      readPaymentHeaderBytes versionId bytes =
        .ok ⟨FORMAT_ID_BYTES, versionId, e, bytes.getD 7 0⟩) ∧
    (PaymentEncoding.tryFrom 0x31 = .ok .Win1251 ∧
      PaymentEncoding.tryFrom 0x32 = .ok .Utf8 ∧
      PaymentEncoding.tryFrom 0x33 = .ok .Koi8R) := by
  refine ⟨fun h1 => ?_, fun h1 h2 => ?_, fun h1 h2 h3 => ?_,
    fun h1 h2 h3 h4 => ?_, fun h1 h2 h3 e he => ?_, by decide⟩
  · simp [readPaymentHeaderBytes, h1]
  · simp [readPaymentHeaderBytes, h1, h2]
  · simp [readPaymentHeaderBytes, h1, h2, h3]
  · simp only [List.mem_cons, List.not_mem_nil, or_false, not_or] at h4
    obtain ⟨n1, n2, n3⟩ := h4
    simp only [List.getD_eq_getElem?_getD] at n1 n2 n3
    simp [readPaymentHeaderBytes, PaymentEncoding.tryFrom, h1, h2, h3, n1, n2, n3]
  · simp only [List.getD_eq_getElem?_getD] at he
    simp [readPaymentHeaderBytes, h1, h2, h3, he]

/-- Witness for C4: the success clause at the concrete header bytes
`"ST00012|"`. -/
theorem C4_header_witness :
    readPaymentHeaderBytes VERSION_0001_BYTES
        [0x53, 0x54, 0x30, 0x30, 0x30, 0x31, 0x32, 0x7C] =
      .ok ⟨FORMAT_ID_BYTES, VERSION_0001_BYTES, .Utf8, 0x7C⟩ :=
  (C4_header VERSION_0001_BYTES
    [0x53, 0x54, 0x30, 0x30, 0x30, 0x31, 0x32, 0x7C]).2.2.2.2.1
    (by decide) (by decide) (by decide) .Utf8 (by decide)

/-- Claim C5: when parsing from text, the Strict and RequisiteTolerant
parsers fail with `CorruptedHeader` whenever the declared charset code
is valid but not Utf8, while the Loose parser's header read (the
`check_encoding = false` call) accepts the same header unchanged. -/
theorem C5_text_charset (versionId : List Nat) (val : List Char)
    (header : PaymentHeader)
    (hb : readPaymentHeaderBytes versionId (narrow8 val) = .ok header)
    (he : header.encoding ≠ .Utf8) :
    strictParseFromStr versionId val =
      some (.error (.corruptedHeader (wrongEncodingMsg header.encoding))) ∧
    toleranceParseFromStr versionId val =
      some (.error (.corruptedHeader (wrongEncodingMsg header.encoding))) ∧
    readPaymentHeader versionId val false = .ok header := by
  have hdr : readPaymentHeader versionId val true =
      .error (.corruptedHeader (wrongEncodingMsg header.encoding)) := by
    simp [readPaymentHeader, hb, he]
  exact ⟨by simp [strictParseFromStr, hdr], by simp [toleranceParseFromStr, hdr],
    by simp [readPaymentHeader, hb]⟩

/-- Witness for C5: a text input declaring Win1251. -/
theorem C5_text_charset_witness :
    strictParseFromStr VERSION_0001_BYTES "ST00011|Name=X".data =
      some (.error (.corruptedHeader (wrongEncodingMsg .Win1251))) ∧
    toleranceParseFromStr VERSION_0001_BYTES "ST00011|Name=X".data =
      some (.error (.corruptedHeader (wrongEncodingMsg .Win1251))) ∧
    readPaymentHeader VERSION_0001_BYTES "ST00011|Name=X".data false =
      .ok ⟨FORMAT_ID_BYTES, VERSION_0001_BYTES, .Win1251, 0x7C⟩ :=
  C5_text_charset VERSION_0001_BYTES "ST00011|Name=X".data
    ⟨FORMAT_ID_BYTES, VERSION_0001_BYTES, .Win1251, 0x7C⟩ (by decide) (by decide)


/-- Claim C6: every (key, value) pair whose key is none of the 50
built-in wire keys is delegated to the extension point, and with the
default `NoCustomRequisites` extension the conversion always fails
with `UnknownPair(key, value)`; hence the concrete Strict decode of an
input carrying such a pair fails with that error. -/
theorem C6_unknown_key (k v : List Char) (hk : k ∉ wireKeys) :
    Requisite.tryFrom k v = .error (.unknownPair k v) ∧
    NoCustomRequisites.tryFrom k v = .error (.unknownPair k v) ∧
    strictParseFromStr VERSION_0001_BYTES
        "ST00012|Name=ACME|PersonalAcc=12345678901234567890|BankName=Bank|BIC=044525225|CorrespAcc=30101810400000000225|Foo=Bar".data =
      some (.error (.unknownPair "Foo".data "Bar".data)) := by
  refine ⟨?_, rfl, by decide⟩
  simp only [wireKeys, List.mem_cons, List.not_mem_nil, or_false, not_or] at hk
  obtain ⟨h1, h2, h3, h4, h5, h6, h7, h8, h9, h10, h11, h12, h13, h14, h15, h16,
    h17, h18, h19, h20, h21, h22, h23, h24, h25, h26, h27, h28, h29, h30, h31,
    h32, h33, h34, h35, h36, h37, h38, h39, h40, h41, h42, h43, h44, h45, h46,
    h47, h48, h49, h50⟩ := hk
  simp [Requisite.tryFrom, NoCustomRequisites.tryFrom, h1, h2, h3, h4, h5, h6,
    h7, h8, h9, h10, h11, h12, h13, h14, h15, h16, h17, h18, h19, h20, h21,
    h22, h23, h24, h25, h28, h29, h30, h31, h32, h33, h34, h35, h36, h37, h38,
    h39, h40, h41, h42, h43, h44, h45, h46, h47, h48, h49, h50]

/-- Witness for C6: the unknown key `"Foo"`. -/
theorem C6_unknown_key_witness :
    Requisite.tryFrom "Foo".data "Bar".data =
      .error (.unknownPair "Foo".data "Bar".data) :=
  (C6_unknown_key "Foo".data "Bar".data (by decide)).1

/-- Claim C7 (amended): under the Loose policy, decoding never fails
for body-level reasons.  `parse_from_bytes` returns `Ok` for every
input whose 8-byte header is valid (any of the three charsets; the
Replace trap and the lossy Utf8 conversion are total), and
`parse_from_str` returns `Ok` for every valid-header input whose byte
offset 8 falls on a character boundary (`dropUtf8Bytes` succeeds —
the amendment, forced by the byte-slice panic exhibited in the
counterexample).  Body chunks without `'='` and pairs whose conversion
fails are silently omitted. -/
theorem C7_loose_amended :
    (∀ (versionId bytes : List Nat) (header : PaymentHeader),
      readPaymentHeaderBytes versionId bytes = .ok header →
      ∃ p, looseParseFromBytes versionId bytes = .ok p) ∧
    (∀ (versionId : List Nat) (val data : List Char) (header : PaymentHeader),
      readPaymentHeaderBytes versionId (narrow8 val) = .ok header →
      dropUtf8Bytes val 8 = some data →
      looseParseFromStr versionId val =
        some (.ok ⟨header, looseReadRequisites data (Char.ofNat header.separator)⟩)) ∧
    (∀ chunk rest, splitOnce '=' chunk = none →
      looseCollect (chunk :: rest) = looseCollect rest) ∧
    (∀ chunk rest k v e, splitOnce '=' chunk = some (k, v) →
      Requisite.tryFrom k v = .error e →
      looseCollect (chunk :: rest) = looseCollect rest) := by
  refine ⟨?_, ?_, ?_, ?_⟩
  · intro versionId bytes header h
    obtain ⟨cs, hcs⟩ := decodePaymentBody_replace_total header.encoding (bytes.drop 8)
    refine ⟨⟨header, looseReadRequisites cs (Char.ofNat header.separator)⟩, ?_⟩
    simp [looseParseFromBytes, h, hcs]
  · intro versionId val data header h hdata
    simp [looseParseFromStr, readPaymentHeader, h, hdata]
  · intro chunk rest h
    simp [looseCollect, h]
  · intro chunk rest k v e hs ht
    simp [looseCollect, hs, ht]

/-- Claim C7 is false as stated for the text entry point: the input
`"ST00012Ā"` has a valid 8-byte header (the eighth character narrows
to separator byte 0), yet the Loose `parse_from_str` panics — the
byte-index slice at offset 8 falls inside the two-byte character `Ā`
— instead of returning `Ok`. -/
theorem C7_counterexample :
    readPaymentHeaderBytes VERSION_0001_BYTES (narrow8 "ST00012Ā".data) =
      .ok ⟨FORMAT_ID_BYTES, VERSION_0001_BYTES, .Utf8, 0⟩ ∧
    looseParseFromStr VERSION_0001_BYTES "ST00012Ā".data = none := by
  decide

/-- Witness for C7: a Win1251 byte input whose body contains the
undefined byte 0x98 and an invalid chunk still decodes under Loose. -/
theorem C7_loose_witness :
    (∃ p, looseParseFromBytes VERSION_0001_BYTES
      [0x53, 0x54, 0x30, 0x30, 0x30, 0x31, 0x31, 0x7C, 0x98, 0xFF] = .ok p) ∧
    looseParseFromStr VERSION_0001_BYTES "ST00012|Name=X|garbage".data =
      some (.ok ⟨⟨FORMAT_ID_BYTES, VERSION_0001_BYTES, .Utf8, 0x7C⟩,
        looseReadRequisites "Name=X|garbage".data (Char.ofNat 0x7C)⟩) :=
  ⟨C7_loose_amended.1 VERSION_0001_BYTES
      [0x53, 0x54, 0x30, 0x30, 0x30, 0x31, 0x31, 0x7C, 0x98, 0xFF]
      ⟨FORMAT_ID_BYTES, VERSION_0001_BYTES, .Win1251, 0x7C⟩ (by decide),
    C7_loose_amended.2.1 VERSION_0001_BYTES "ST00012|Name=X|garbage".data
      "Name=X|garbage".data
      ⟨FORMAT_ID_BYTES, VERSION_0001_BYTES, .Utf8, 0x7C⟩ (by decide) (by decide)⟩

/-- Claim C8: TechCode is a closed 15-member enumeration mapped
bidirectionally onto the two-digit strings "01" through "15":
`from_str` inverts `as_str` on every member, every member's string is
among the fifteen, and every string outside that set fails with
`UnknownTechCode`. -/
theorem C8_techCode :
    (∀ t : TechCode, TechCode.fromStr t.asStr = .ok t) ∧
    (∀ s : List Char, s ∉ techCodeStrings →
      TechCode.fromStr s = .error (.unknownTechCode s)) ∧
    techCodeStrings.length = 15 ∧
    (∀ t : TechCode, t.asStr ∈ techCodeStrings) := by
  refine ⟨techCode_fromStr_asStr, ?_, rfl, fun t => by cases t <;> decide⟩
  intro s hs
  simp only [techCodeStrings, List.mem_cons, List.not_mem_nil, or_false,
    not_or] at hs
  obtain ⟨h1, h2, h3, h4, h5, h6, h7, h8, h9, h10, h11, h12, h13, h14, h15⟩ := hs
  simp [TechCode.fromStr, h1, h2, h3, h4, h5, h6, h7, h8, h9, h10, h11, h12,
    h13, h14, h15]

/-- Witness for C8: the round trip at "01" and the failure at "16". -/
theorem C8_techCode_witness :
    TechCode.fromStr (TechCode.asStr .Mobile) = .ok .Mobile ∧
    TechCode.fromStr "16".data = .error (.unknownTechCode "16".data) :=
  ⟨C8_techCode.1 .Mobile, C8_techCode.2.1 "16".data (by decide)⟩

/-- Claim C9: `with_additional_requisites` panics (a fatal `assert!`,
not a recoverable error) whenever any supplied requisite is of one of
the five required kinds; otherwise it succeeds, appending the supplied
requisites after the five seeded required ones, so the built Payment
still satisfies the required-order invariant (its order check
passes). -/
theorem C9_builder (req : RequiredRequisite) (adds : List Requisite) :
    ((∃ r ∈ adds, r.isRequiredKind = true) →
      (Payment.builder req).withAdditionalRequisites adds = none) ∧
    ((∀ r ∈ adds, r.isRequiredKind = false) →
      ∃ b, (Payment.builder req).withAdditionalRequisites adds = some b ∧
        b.build.requisites = requiredRequisitesOf req ++ adds ∧
        validateRequiredRequisites b.build.requisites = some (.ok ())) := by
  constructor
  · intro ⟨r, hr, hk⟩
    have hany : adds.any Requisite.isRequiredKind = true :=
      List.any_eq_true.mpr ⟨r, hr, hk⟩
    simp [PaymentBuilder.withAdditionalRequisites, hany]
  · intro h
    have hany : adds.any Requisite.isRequiredKind = false :=
      List.any_eq_false.mpr (fun r hr => by simp [h r hr])
    refine ⟨⟨⟨⟨FORMAT_ID_BYTES, VERSION_0001_BYTES, .Utf8, 0x7C⟩,
      requiredRequisitesOf req ++ adds⟩⟩, ?_, rfl, ?_⟩
    · simp [PaymentBuilder.withAdditionalRequisites, hany, Payment.builder,
        PaymentBuilder.default]
    · exact validate_required_prefix req.name req.personalAcc req.bankName
        req.bic req.correstpAcc adds

/-- Witness for C9: a required-kind extra requisite panics; a free one
is appended and keeps the invariant. -/
theorem C9_builder_witness :
    (Payment.builder sampleReq).withAdditionalRequisites
      [.bic ⟨"044525225".data, by decide⟩] = none ∧
    ∃ b, (Payment.builder sampleReq).withAdditionalRequisites
        [.lastName "Smith".data] = some b ∧
      b.build.requisites = requiredRequisitesOf sampleReq ++ [.lastName "Smith".data] ∧
      validateRequiredRequisites b.build.requisites = some (.ok ()) :=
  ⟨(C9_builder sampleReq [.bic ⟨"044525225".data, by decide⟩]).1
      ⟨.bic ⟨"044525225".data, by decide⟩, by simp, rfl⟩,
    (C9_builder sampleReq [.lastName "Smith".data]).2 (by decide)⟩

/-- Claim C10 (code evaluation): `parse_from_str` is not total — on the
input `"ST00012é"` the header (read from the first eight characters)
parses successfully, yet every policy then panics because the byte
index 8 falls inside the two-byte character `é`, so the `val[8..]`
slice is not on a character boundary. -/
theorem C10_code_eval :
    readPaymentHeader VERSION_0001_BYTES "ST00012é".data true =
      .ok ⟨FORMAT_ID_BYTES, VERSION_0001_BYTES, .Utf8, 0xE9⟩ ∧
    strictParseFromStr VERSION_0001_BYTES "ST00012é".data = none ∧
    toleranceParseFromStr VERSION_0001_BYTES "ST00012é".data = none ∧
    looseParseFromStr VERSION_0001_BYTES "ST00012é".data = none := by
  decide

end Gost
